import Mathlib

/-!
Verification of the `sharer-gist` repository: a decorator `share` that lets a
synchronous method of a resource be awaited from an asyncio event loop, by
submitting the bound call to the resource instance's single-worker
`ThreadPoolExecutor` (`SharerMixin._pool`), yielding once via
`await asyncio.sleep(0)`, and then returning `future.result()`.

The development embeds:
  * Python values, argument binding (positional / keyword / defaults) and
    exception objects (with an allocation id, so object identity is visible);
  * the decorator body `share.__call__` (submit, yield, `future.result()`);
  * the descriptor binding `share.__get__` (which stores the accessed
    instance in `self._obj`, a field of the per-class decorator object);
  * the single-worker executor lane as a small-step state machine
    (queue / running slot / completion list / shutdown flag / worker thread);
  * the asyncio ready-queue scheduler together with the blocking
    `future.result()` call, to settle the starvation claim.
-/

/-- A Python exception object: `excId` is the allocation identity of the
object, `kind` its class name, `msg` the message it was constructed with.
`concurrent.futures` stores the raised object itself in the future and
`Future.result` re-raises that stored object, so identity is preserved. -/
structure PyExc where
  excId : Nat
  kind : String
  msg : String
deriving DecidableEq, Repr

/-- Python values occurring in this repository: `None`, booleans, integers,
floats (exact rationals suffice for the arithmetic in the examples), and
strings. -/
inductive PyVal where
  | pyNone
  | pyBool (b : Bool)
  | pyInt (n : Int)
  | pyFloat (q : Rat)
  | pyStr (s : String)
deriving DecidableEq, Repr

/-- Numeric view of a Python value: `bool` is a subtype of `int` in Python,
so `True == 1` holds; `None` and strings are not numeric. -/
def PyVal.toNum : PyVal → Option Rat
  | pyBool b => some (if b then 1 else 0)
  | pyInt n => some (n : Rat)
  | pyFloat q => some q
  | _ => none

/-- Python `==` on the values above: numeric values compare by value across
`bool`/`int`/`float`; otherwise equality holds only for equal values of the
same kind (`None == None` is `True`, `None == 3` is `False`). -/
def pyEq (a b : PyVal) : Bool :=
  match a.toNum, b.toNum with
  | some x, some y => decide (x = y)
  | _, _ => decide (a = b)

/-- A formal parameter of a Python function: its name and its default value,
if any (`three=None` has default `some PyVal.pyNone`; a parameter without a
default has `none`). -/
structure Param where
  name : String
  dflt : Option PyVal
deriving DecidableEq, Repr

/-- CPython call binding for ordinary parameters: positional arguments fill
parameters left to right (rejecting a keyword that repeats a positionally
filled parameter), then keyword arguments fill by name, then defaults fill
the rest; `none` models the `TypeError` raised on a binding failure
(too many positionals, unknown or duplicate keyword, missing argument). -/
def bindParams : List Param → List PyVal → List (String × PyVal) → Option (List PyVal)
  | [], [], kw => if kw.isEmpty then some [] else none
  | [], _ :: _, _ => none
  | p :: ps, v :: vs, kw =>
      if kw.any (fun kv => kv.1 = p.name) then none
      else (bindParams ps vs kw).map (fun rest => v :: rest)
  | p :: ps, [], kw =>
      match kw.find? (fun kv => kv.1 = p.name) with
      | some kv => (bindParams ps [] (kw.filter (fun x => ¬ x.1 = p.name))).map (fun rest => kv.2 :: rest)
      | none =>
          match p.dflt with
          | some d => (bindParams ps [] kw).map (fun rest => d :: rest)
          | none => none

/-- A synchronous Python method of a resource class, as stored in the
decorator's `_exe` field: its parameter list after `self`, and its body,
which receives the bound `self` (of receiver type `ρ`) and the bound
parameter values in order, and either returns a value or raises. -/
structure PyFunc (ρ : Type) where
  params : List Param
  body : ρ → List PyVal → Except PyExc PyVal

/-- The `TypeError` the interpreter raises when a call does not bind to the
signature. -/
def typeErrorExc : PyExc := ⟨0, "TypeError", "bad call arguments"⟩

/-- Direct synchronous invocation `f(r, *pos, **kw)`: bind the arguments to
the signature, then run the body on the bound values. -/
def callPyFunc (f : PyFunc ρ) (r : ρ) (pos : List PyVal) (kw : List (String × PyVal)) :
    Except PyExc PyVal :=
  match bindParams f.params pos kw with
  | some vals => f.body r vals
  | none => Except.error typeErrorExc

/-- The job record built by `pool.submit(self._exe, self._obj, *args, **kwargs)`:
the callable, the bound resource instance, and the call's arguments.
Immutable after creation; `run` is what the worker thread executes. -/
structure Job (ρ : Type) where
  exe : PyFunc ρ
  obj : ρ
  pos : List PyVal
  kw : List (String × PyVal)

/-- Worker-side execution of a job: `self._exe(self._obj, *args, **kwargs)`. -/
def Job.run (j : Job ρ) : Except PyExc PyVal := callPyFunc j.exe j.obj j.pos j.kw

/-- A resolved `concurrent.futures.Future`: it stores the job's outcome, a
value set with `set_result` or the raised exception object itself set with
`set_exception`. -/
structure Future where
  outcome : Except PyExc PyVal
deriving Repr

/-- `Future.result()`: returns the stored value, or re-raises the stored
exception object (the identical object, not a copy). -/
def Future.result (f : Future) : Except PyExc PyVal := f.outcome

/-- Decidable equality of outcomes, so that concrete runs can be checked by
`decide`. -/
instance instDecEqExcept [DecidableEq ε] [DecidableEq α] : DecidableEq (Except ε α)
  | Except.error e, Except.error e' =>
      if h : e = e' then Decidable.isTrue (by rw [h])
      else Decidable.isFalse (fun hc => h (by cases hc; rfl))
  | Except.error _, Except.ok _ => Decidable.isFalse (fun hc => Except.noConfusion hc)
  | Except.ok _, Except.error _ => Decidable.isFalse (fun hc => Except.noConfusion hc)
  | Except.ok a, Except.ok a' =>
      if h : a = a' then Decidable.isTrue (by rw [h])
      else Decidable.isFalse (fun hc => h (by cases hc; rfl))

/-- The error `ThreadPoolExecutor.submit` raises after `shutdown()`; this is
the `LaneClosed` condition of the design. -/
def laneClosedError : PyExc := ⟨0, "RuntimeError", "cannot schedule new futures after shutdown"⟩

/-- Snapshot of the `ThreadPoolExecutor` as seen by a submitter: whether
`shutdown()` has run. -/
structure Pool where
  closed : Bool
deriving DecidableEq, Repr

/-- A pool that has not been shut down. -/
def openPool : Pool := ⟨false⟩

/-- `pool.submit(fn, *args, **kwargs)`: raises `laneClosedError` if the pool
is shut down; otherwise returns the future that the single worker resolves
with the job's outcome (the awaiting caller blocks on this future, so its
denotation to the caller is the job's own outcome, reached after any
previously queued jobs drain in FIFO order — serialization is proved on the
lane state machine below). -/
def Pool.submit (p : Pool) (j : Job ρ) : Except PyExc Future :=
  if p.closed then Except.error laneClosedError else Except.ok ⟨j.run⟩

/-- The body of `share.__call__` once `self._obj` is bound to `r`:
`future = self._obj.pool.submit(self._exe, self._obj, *args, **kwargs)`,
`await asyncio.sleep(0)` (pure control transfer, no effect on the value),
`return future.result()`. A submit failure propagates to the awaiter. -/
def share_call (p : Pool) (f : PyFunc ρ) (r : ρ) (pos : List PyVal)
    (kw : List (String × PyVal)) : Except PyExc PyVal :=
  match p.submit ⟨f, r, pos, kw⟩ with
  | Except.error e => Except.error e
  | Except.ok fut => fut.result

/-- `Resource.computation(self)`: `return 100 * 100 / 2`. Python `*` on ints
gives the int `10000` and true division `/` gives the float `5000.0`, exact,
rendered here as a rational. -/
def computationFunc : PyFunc ρ :=
  ⟨[], fun _ _ => Except.ok (PyVal.pyFloat ((100 * 100 : Rat) / 2))⟩

/-- `Resource.arguments(self, one, two, three=None, four=None)`:
`return one == 1 and two == 2 and three == 3 and four == 4`. -/
def argumentsFunc : PyFunc ρ :=
  ⟨[⟨"one", none⟩, ⟨"two", none⟩, ⟨"three", some PyVal.pyNone⟩, ⟨"four", some PyVal.pyNone⟩],
   fun _ vals =>
     match vals with
     | [a, b, c, d] =>
         Except.ok (PyVal.pyBool (pyEq a (PyVal.pyInt 1) && pyEq b (PyVal.pyInt 2)
           && pyEq c (PyVal.pyInt 3) && pyEq d (PyVal.pyInt 4)))
     | _ => Except.error typeErrorExc⟩

/-- `Resource.crash(self)`: `raise RuntimeWarning("Can you read this exception?")`.
Each execution allocates a fresh exception object; `fresh` is its identity. -/
def crashFunc (fresh : Nat) : PyFunc ρ :=
  ⟨[], fun _ _ => Except.error ⟨fresh, "RuntimeWarning", "Can you read this exception?"⟩⟩

/-- The mutable state of one `share` decorator object. There is exactly one
such object per decorated method per class (created when the class body
runs), so its `_obj` slot is shared by all instances of the class. `ρ` is
the type of resource instances; `obj` is the current content of
`self._obj`, with `Option.none` modelling both the initially unset slot and
the `None` stored by a class-level attribute access. -/
structure ShareState (ρ : Type) where
  obj : Option ρ
deriving DecidableEq, Repr

/-- `share.__get__(self, instance, owner)`: stores the accessing instance
into `self._obj` (overwriting whatever was there — the previous state `_s`
is discarded) and returns `self.__call__`. A class-level access passes
`instance = None`. -/
def share_get (_s : ShareState ρ) (inst : Option ρ) : ShareState ρ := ⟨inst⟩

/-- The `AttributeError` raised by evaluating `self._obj.pool` when
`self._obj` is `None`. -/
def attrErrorNone : PyExc := ⟨0, "AttributeError", "NoneType object has no attribute pool"⟩

/-- Observable effect of awaiting the callable returned by `share.__get__`:
`receiver` is the instance the job was bound and submitted to
(`Option.none` meaning the call failed before `pool.submit` ran, so no job
was submitted and the wrapped body never executed), and `outcome` is what
the awaiter sees. -/
structure BoundCallResult (ρ : Type) where
  receiver : Option ρ
  outcome : Except PyExc PyVal
deriving DecidableEq, Repr

/-- Awaiting `self.__call__(*pos, **kw)` with decorator state `s`: the body
reads `self._obj` at await time; if it holds `None`, the attribute access
`self._obj.pool` raises before any submission; otherwise the job is bound
to that instance and submitted to that same instance's own pool. -/
def awaitBound (s : ShareState ρ) (f : PyFunc ρ) (pos : List PyVal)
    (kw : List (String × PyVal)) : BoundCallResult ρ :=
  match s.obj with
  | Option.none => ⟨Option.none, Except.error attrErrorNone⟩
  | Option.some r => ⟨Option.some r, share_call openPool f r pos kw⟩

/-- State of one instance's lane, the `ThreadPoolExecutor(max_workers=1)`
created in `SharerMixin.__init__`: the FIFO queue of accepted jobs (by id),
the job the single worker thread is currently executing, the completed jobs
in completion order, the accepted jobs in submission order, the shutdown
flag, and whether the worker thread is still alive. -/
structure LaneState where
  queue : List Nat
  running : Option Nat
  done : List Nat
  submitted : List Nat
  closed : Bool
  workerAlive : Bool
deriving DecidableEq, Repr

/-- A freshly constructed lane: empty, accepting, one live worker. -/
def initLane : LaneState := ⟨[], Option.none, [], [], false, true⟩

/-- `submit` on the lane: rejected with `laneClosedError` after shutdown —
the job is not enqueued — otherwise appended to the FIFO queue. -/
def LaneState.submitJob (s : LaneState) (j : Nat) : Except PyExc LaneState :=
  if s.closed then Except.error laneClosedError
  else Except.ok { s with queue := s.queue ++ [j], submitted := s.submitted ++ [j] }

/-- Events of the lane: a submission, the single worker picking the queue
head, the worker finishing the job it is executing, a `shutdown()` request,
and the worker thread exiting once a shut-down lane has drained. -/
inductive LaneStep where
  | submit (j : Nat)
  | start
  | finish
  | close
  | exitWorker
deriving DecidableEq, Repr

/-- One event of the lane. A rejected submission leaves the lane unchanged
(the error is raised to the submitter). `start`, `finish` and `exitWorker`
are worker actions: they need a live worker and fire only when enabled. -/
def applyStep (s : LaneState) : LaneStep → Option LaneState
  | LaneStep.submit j =>
      match s.submitJob j with
      | Except.ok s' => some s'
      | Except.error _ => some s
  | LaneStep.start =>
      match s.workerAlive, s.running, s.queue with
      | true, Option.none, j :: rest => some { s with running := some j, queue := rest }
      | _, _, _ => none
  | LaneStep.finish =>
      match s.workerAlive, s.running with
      | true, Option.some j => some { s with running := Option.none, done := s.done ++ [j] }
      | _, _ => none
  | LaneStep.close => some { s with closed := true }
  | LaneStep.exitWorker =>
      if s.workerAlive = true ∧ s.closed = true ∧ s.running = Option.none ∧ s.queue = [] then
        some { s with workerAlive := false }
      else none

/-- Run a sequence of lane events; `none` when some worker action was not
enabled where it was placed. -/
def runTrace (s : LaneState) : List LaneStep → Option LaneState
  | [] => some s
  | e :: tr =>
      match applyStep s e with
      | some s' => runTrace s' tr
      | none => none

/-- Number of submissions issued in a trace. -/
def numSubmits : List LaneStep → Nat
  | [] => 0
  | LaneStep.submit _ :: tr => numSubmits tr + 1
  | _ :: tr => numSubmits tr

/-- The lane after `shutdown()` with `wait=True` (what
`SharerMixin.__del__` calls): no further submissions are accepted, the
already accepted jobs drain in FIFO order, and the worker thread exits.
`drainQueueSched` below exhibits the exact worker event sequence realizing
this final state. -/
def laneShutdown (s : LaneState) : LaneState :=
  { queue := [], running := Option.none,
    done := s.done ++ s.running.toList ++ s.queue,
    submitted := s.submitted, closed := true, workerAlive := false }

/-- The worker events that drain a shut-down lane with an idle worker:
start and finish each queued job in order, then exit. -/
def drainQueueSched : List Nat → List LaneStep
  | [] => [LaneStep.exitWorker]
  | _ :: rest => LaneStep.start :: LaneStep.finish :: drainQueueSched rest

/-- The worker events that drain a shut-down lane: finish the job in
flight, if any, then drain the queue and exit. -/
def drainSched (s : LaneState) : List LaneStep :=
  (match s.running with
   | Option.some _ => [LaneStep.finish]
   | Option.none => []) ++ drainQueueSched s.queue

/-- The two asyncio tasks of the starvation scenario: `caller` awaits a
decorated method, `ticker` is an unrelated pending task that repeatedly
performs `await asyncio.sleep(0)`, counting its completed iterations. -/
inductive CTask where
  | caller
  | ticker
deriving DecidableEq, Repr

/-- Combined state of the single-threaded asyncio loop and the dedicated
worker executing the submitted job. `ready` is the loop's FIFO ready queue;
`blocked` says the loop thread is inside the blocking `future.result()`
call; `submitted` / `jobLeft` / `jobDone` describe the job on the worker
(`jobLeft` work units remain); `callerPhase` is `0` before the submit line
runs and `1` once the caller has yielded at `await asyncio.sleep(0)`;
`tickerCount` counts the ticker's completed iterations. -/
structure LoopSys where
  ready : List CTask
  blocked : Bool
  submitted : Bool
  jobLeft : Nat
  jobDone : Bool
  callerPhase : Nat
  callerDone : Bool
  tickerCount : Nat
deriving DecidableEq, Repr

/-- Both tasks scheduled, nothing submitted yet; the job will need `k` work
units on the worker. -/
def loopInit (k : Nat) : LoopSys :=
  ⟨[CTask.caller, CTask.ticker], false, false, k, false, 0, false, 0⟩

/-- Interleaving events: one step of the scheduler thread, or one work unit
performed by the dedicated worker thread. -/
inductive LoopEv where
  | loopStep
  | workStep
deriving DecidableEq, Repr

/-- One step of the scheduler thread. While it is blocked inside
`future.result()` it can do nothing but return once the job is done — in
particular it cannot run any other ready task. Otherwise it runs the head
of the ready queue up to its next suspension point: the caller first
executes the submit line and `await asyncio.sleep(0)`, which re-queues it
at the back of the ready queue; on resumption it executes
`future.result()`, which blocks the loop thread if the job has not yet
finished. The ticker increments its counter and re-queues itself. -/
def schedStep (s : LoopSys) : LoopSys :=
  if s.blocked then
    if s.jobDone then { s with blocked := false, callerDone := true } else s
  else
    match s.ready with
    | [] => s
    | CTask.caller :: rest =>
        if s.callerPhase = 0 then
          { s with submitted := true, callerPhase := 1, ready := rest ++ [CTask.caller] }
        else
          if s.jobDone then { s with callerDone := true, ready := rest }
          else { s with blocked := true, ready := rest }
    | CTask.ticker :: rest =>
        { s with tickerCount := s.tickerCount + 1, ready := rest ++ [CTask.ticker] }

/-- One unit of work by the dedicated worker: it only makes progress on a
submitted, unfinished job; the job completes with its last unit. -/
def workStepFn (s : LoopSys) : LoopSys :=
  if s.submitted = true ∧ s.jobDone = false then
    if s.jobLeft ≤ 1 then { s with jobLeft := 0, jobDone := true }
    else { s with jobLeft := s.jobLeft - 1 }
  else s

/-- Run an interleaving of scheduler steps and worker steps. -/
def loopRun (s : LoopSys) : List LoopEv → LoopSys
  | [] => s
  | LoopEv.loopStep :: evs => loopRun (schedStep s) evs
  | LoopEv.workStep :: evs => loopRun (workStepFn s) evs

/-- FIFO invariant of the lane: completed, in-flight and queued jobs, in
that order, are exactly the accepted submissions in submission order. -/
def laneInv (s : LaneState) : Prop :=
  s.done ++ s.running.toList ++ s.queue = s.submitted

/-- Closedness and freshness are stable: once the lane is shut down, a job
id that is in none of the lane's slots can never enter them, because every
further submission is rejected. -/
def laneFresh (j : Nat) (s : LaneState) : Prop :=
  s.closed = true ∧ j ∉ s.queue ∧ s.running ≠ some j ∧ j ∉ s.done

theorem applyStep_laneInv {s s' : LaneState} {e : LaneStep}
    (hinv : laneInv s) (h : applyStep s e = some s') : laneInv s' := by
  obtain ⟨q, r, d, sub, c, w⟩ := s
  unfold laneInv at hinv ⊢
  dsimp only at hinv
  cases e with
  | submit j =>
      by_cases hc : c = true
      · simp [applyStep, LaneState.submitJob, hc] at h
        subst h; simpa using hinv
      · simp [applyStep, LaneState.submitJob, hc] at h
        subst h
        dsimp only
        rw [← hinv]
        simp [List.append_assoc]
  | start =>
      cases w with
      | false => simp [applyStep] at h
      | true =>
          cases r with
          | some j => simp [applyStep] at h
          | none =>
              cases q with
              | nil => simp [applyStep] at h
              | cons j rest =>
                  simp [applyStep] at h
                  subst h
                  simpa using hinv
  | finish =>
      cases w with
      | false => simp [applyStep] at h
      | true =>
          cases r with
          | none => simp [applyStep] at h
          | some j =>
              simp [applyStep] at h
              subst h
              simpa [List.append_assoc] using hinv
  | close =>
      simp [applyStep] at h
      subst h
      simpa using hinv
  | exitWorker =>
      simp only [applyStep] at h
      split at h
      · injection h with h2
        subst h2
        simpa using hinv
      · cases h

theorem runTrace_laneInv {tr : List LaneStep} {s s' : LaneState}
    (hinv : laneInv s) (h : runTrace s tr = some s') : laneInv s' := by
  induction tr generalizing s with
  | nil =>
      simp [runTrace] at h
      subst h; exact hinv
  | cons e tr ih =>
      rw [runTrace] at h
      cases he : applyStep s e with
      | none => rw [he] at h; cases h
      | some s1 =>
          rw [he] at h
          exact ih (applyStep_laneInv hinv he) h

theorem applyStep_laneFresh {j : Nat} {s s' : LaneState} {e : LaneStep}
    (hf : laneFresh j s) (h : applyStep s e = some s') : laneFresh j s' := by
  obtain ⟨q, r, d, sub, c, w⟩ := s
  obtain ⟨hc, hq, hr, hd⟩ := hf
  dsimp only at hc hq hr hd
  subst hc
  cases e with
  | submit i =>
      simp [applyStep, LaneState.submitJob] at h
      subst h
      exact ⟨rfl, hq, hr, hd⟩
  | start =>
      cases w with
      | false => simp [applyStep] at h
      | true =>
          cases r with
          | some i => simp [applyStep] at h
          | none =>
              cases q with
              | nil => simp [applyStep] at h
              | cons i rest =>
                  simp [applyStep] at h
                  subst h
                  refine ⟨rfl, ?_, ?_, hd⟩
                  · exact fun hmem => hq (List.mem_cons_of_mem _ hmem)
                  · intro hcontra
                    apply hq
                    simp only [Option.some.injEq] at hcontra
                    rw [hcontra]
                    exact List.mem_cons_self _ _
  | finish =>
      cases w with
      | false => simp [applyStep] at h
      | true =>
          cases r with
          | none => simp [applyStep] at h
          | some i =>
              simp [applyStep] at h
              subst h
              refine ⟨rfl, hq, by simp, ?_⟩
              intro hmem
              rcases List.mem_append.mp hmem with hmem | hmem
              · exact hd hmem
              · apply hr
                simp only [List.mem_singleton] at hmem
                rw [hmem]
  | close =>
      simp [applyStep] at h
      subst h
      exact ⟨rfl, hq, hr, hd⟩
  | exitWorker =>
      simp only [applyStep] at h
      split at h
      · injection h with h2
        subst h2
        exact ⟨rfl, hq, hr, hd⟩
      · cases h

theorem runTrace_laneFresh {j : Nat} {tr : List LaneStep} {s s' : LaneState}
    (hf : laneFresh j s) (h : runTrace s tr = some s') : laneFresh j s' := by
  induction tr generalizing s with
  | nil =>
      simp [runTrace] at h
      subst h; exact hf
  | cons e tr ih =>
      rw [runTrace] at h
      cases he : applyStep s e with
      | none => rw [he] at h; cases h
      | some s1 =>
          rw [he] at h
          exact ih (applyStep_laneFresh hf he) h

theorem runTrace_drainQueue (q d sub : List Nat) :
    runTrace ⟨q, Option.none, d, sub, true, true⟩ (drainQueueSched q) =
      some ⟨[], Option.none, d ++ q, sub, true, false⟩ := by
  induction q generalizing d with
  | nil => simp [drainQueueSched, runTrace, applyStep]
  | cons j rest ih =>
      simp only [drainQueueSched, runTrace, applyStep]
      rw [ih (d ++ [j])]
      simp

theorem runTrace_drainSched (s : LaneState) (halive : s.workerAlive = true)
    (hclosed : s.closed = true) :
    runTrace s (drainSched s) = some (laneShutdown s) := by
  obtain ⟨q, r, d, sub, c, w⟩ := s
  dsimp only at halive hclosed
  subst halive; subst hclosed
  cases r with
  | none =>
      simp only [drainSched, List.nil_append]
      rw [runTrace_drainQueue]
      simp [laneShutdown]
  | some j =>
      simp only [drainSched, List.cons_append, List.nil_append, runTrace, applyStep,
        List.append_eq]
      rw [runTrace_drainQueue]
      simp [laneShutdown, List.append_assoc]

theorem drainQueueSched_length (q : List Nat) :
    (drainQueueSched q).length = 2 * q.length + 1 := by
  induction q with
  | nil => rfl
  | cons j rest ih =>
      simp only [drainQueueSched, List.length_cons, ih]
      ring

theorem drainSched_length (s : LaneState) :
    (drainSched s).length ≤ 2 * s.queue.length + 2 := by
  obtain ⟨q, r, d, sub, c, w⟩ := s
  cases r with
  | none => simp [drainSched, drainQueueSched_length]
  | some j =>
      simp only [drainSched, List.length_append, List.length_cons, List.length_nil,
        drainQueueSched_length]
      omega

/-- A concrete lane trace with two submissions, each started and finished
in order. -/
def c1Trace : List LaneStep :=
  [LaneStep.submit 0, LaneStep.submit 1, LaneStep.start, LaneStep.finish,
   LaneStep.start, LaneStep.finish]

/-- Claim C1: for every trace of lane events issuing at least two
submissions against the instance's single-worker lane, the lane executes at
most one job at any instant, and the completed jobs form an initial segment
of the accepted submissions in submission order — strict FIFO, no overlap,
no reordering. -/
theorem c1_serialized_fifo (tr : List LaneStep) (s : LaneState)
    (h : runTrace initLane tr = some s) (hN : 2 ≤ numSubmits tr) :
    s.running.toList.length ≤ 1 ∧ ∃ t, s.done ++ t = s.submitted := by
  have hinit : laneInv initLane := rfl
  have hinv : laneInv s := runTrace_laneInv hinit h
  constructor
  · cases s.running <;> simp
  · exact ⟨s.running.toList ++ s.queue, by rw [← List.append_assoc]; exact hinv⟩

/-- Witness for C1: the hypotheses of `c1_serialized_fifo` hold at the
concrete trace `c1Trace`, and the conclusion follows by the theorem. -/
theorem c1_serialized_fifo_witness :
    (runTrace initLane c1Trace =
        some ⟨[], Option.none, [0, 1], [0, 1], false, true⟩ ∧
      2 ≤ numSubmits c1Trace) ∧
    ((⟨[], Option.none, [0, 1], [0, 1], false, true⟩ : LaneState).running.toList.length ≤ 1 ∧
      ∃ t, (⟨[], Option.none, [0, 1], [0, 1], false, true⟩ : LaneState).done ++ t =
        (⟨[], Option.none, [0, 1], [0, 1], false, true⟩ : LaneState).submitted) :=
  ⟨⟨by decide, by decide⟩, c1_serialized_fifo c1Trace _ (by decide) (by decide)⟩

/-- Claim C2: for every argument combination accepted by the wrapped
method's original signature (positional, keyword, default-filled), awaiting
the decorated method on an open lane yields exactly the value of calling
the original method directly and synchronously on that receiver; in
particular the example `computation`, returning `100 * 100 / 2`, resolves
to the float `5000.0` when awaited. -/
theorem c2_await_equals_direct {ρ : Type} (p : Pool) (f : PyFunc ρ) (r : ρ)
    (pos : List PyVal) (kw : List (String × PyVal))
    (hopen : p.closed = false)
    (hacc : (bindParams f.params pos kw).isSome = true) :
    share_call p f r pos kw = callPyFunc f r pos kw ∧
      share_call p computationFunc r [] [] = Except.ok (PyVal.pyFloat 5000) := by
  constructor
  · simp [share_call, Pool.submit, hopen, Future.result, Job.run]
  · simp [share_call, Pool.submit, hopen, Future.result, Job.run, computationFunc,
      callPyFunc, bindParams]
    norm_num

/-- Witness for C2 at the `arguments` method with positional arguments
`(1, 2)` on an open pool. -/
theorem c2_await_equals_direct_witness :
    (openPool.closed = false ∧
      (bindParams (argumentsFunc : PyFunc Unit).params
        [PyVal.pyInt 1, PyVal.pyInt 2] []).isSome = true) ∧
    (share_call openPool (argumentsFunc : PyFunc Unit) () [PyVal.pyInt 1, PyVal.pyInt 2] [] =
        callPyFunc (argumentsFunc : PyFunc Unit) () [PyVal.pyInt 1, PyVal.pyInt 2] [] ∧
      share_call openPool computationFunc () [] [] = Except.ok (PyVal.pyFloat 5000)) :=
  ⟨⟨by decide, by decide⟩,
    c2_await_equals_direct openPool (argumentsFunc : PyFunc Unit) ()
      [PyVal.pyInt 1, PyVal.pyInt 2] [] (by decide) (by decide)⟩

/-- Claim C3: awaiting the decorated `crash` method raises an error of the
same type (`RuntimeWarning`) with the same message as the one raised by the
body, on every repetition: the ten sequential repetitions each terminate
with exactly that error kind and message (fresh exception object each
time), never a success; and this holds for an arbitrary repetition. -/
theorem c3_crash_repetitions :
    ((List.range 10).map (fun i => share_call openPool (crashFunc i : PyFunc Unit) () [] []) =
      (List.range 10).map (fun i =>
        Except.error ⟨i, "RuntimeWarning", "Can you read this exception?"⟩)) ∧
    ∀ i : Nat, share_call openPool (crashFunc i : PyFunc Unit) () [] [] =
      Except.error ⟨i, "RuntimeWarning", "Can you read this exception?"⟩ :=
  ⟨rfl, fun _ => rfl⟩

/-- The loop state reached after the caller submits a three-unit job and
yields, the ticker runs once, and the caller resumes into
`future.result()`. -/
def starveMid : LoopSys :=
  loopRun (loopInit 3) [LoopEv.loopStep, LoopEv.loopStep, LoopEv.loopStep]

/-- Claim C4 evidence: the decorated call yields exactly once — the pending
ticker gets one iteration during `await asyncio.sleep(0)` — but then the
loop thread blocks inside `future.result()`: the ticker is ready and the
job unfinished, yet five further scheduler steps leave its count unchanged;
only after the worker completes the job does the caller finish, with the
ticker still at one iteration. The claim that other pending tasks are not
starved for the duration of the job fails on this run. -/
theorem c4_result_blocks_loop :
    (starveMid.blocked = true ∧ starveMid.jobDone = false ∧
      starveMid.ready = [CTask.ticker] ∧ starveMid.tickerCount = 1) ∧
    (loopRun starveMid (List.replicate 5 LoopEv.loopStep)).tickerCount = 1 ∧
    ((loopRun starveMid (List.replicate 5 LoopEv.loopStep ++
        [LoopEv.workStep, LoopEv.workStep, LoopEv.workStep, LoopEv.loopStep])).callerDone = true ∧
      (loopRun starveMid (List.replicate 5 LoopEv.loopStep ++
        [LoopEv.workStep, LoopEv.workStep, LoopEv.workStep, LoopEv.loopStep])).tickerCount = 1) := by
  decide

/-- Claim C5 evidence: `share.__get__` stores the accessing instance into
the one `_obj` slot of the per-class decorator object. After instance `a`
(id `0`) accesses the method and instance `b` (id `1`) accesses it, awaiting
the callable obtained through `a` executes with receiver `b` and submits to
`b`'s pool — not receiver `a` as the claim requires. -/
theorem c5_last_access_wins :
    (awaitBound (share_get (share_get ⟨Option.none⟩ (some 0)) (some 1))
        (computationFunc : PyFunc Nat) [] []).receiver = some 1 ∧
      (some 1 : Option Nat) ≠ some 0 := by
  constructor
  · rfl
  · decide

/-- Claim C6: submitting to the lane fails exactly when the lane has been
shut down; in that case the submitter synchronously receives the
`LaneClosed` error, the rejected job is never executed by any sequence of
later lane events, and after shutdown the worker drains the accepted jobs
and is released by an event sequence of length at most twice the queue
length plus two. -/
theorem c6_submit_closed_release (s : LaneState) (j : Nat)
    (halive : s.workerAlive = true)
    (hfresh : j ∉ s.queue ∧ s.running ≠ some j ∧ j ∉ s.done) :
    ((∃ e, s.submitJob j = Except.error e) ↔ s.closed = true) ∧
    (s.closed = true →
      s.submitJob j = Except.error laneClosedError ∧
      ∀ tr s', runTrace s tr = some s' → j ∉ s'.done) ∧
    (runTrace { s with closed := true } (drainSched { s with closed := true }) =
        some (laneShutdown s) ∧
      (laneShutdown s).workerAlive = false ∧
      (laneShutdown s).done = s.done ++ s.running.toList ++ s.queue ∧
      (drainSched { s with closed := true }).length ≤ 2 * s.queue.length + 2) := by
  refine ⟨?_, ?_, ?_, rfl, rfl, ?_⟩
  · constructor
    · rintro ⟨e, he⟩
      by_contra hc
      simp [LaneState.submitJob, hc] at he
    · intro hc
      exact ⟨laneClosedError, by simp [LaneState.submitJob, hc]⟩
  · intro hc
    refine ⟨by simp [LaneState.submitJob, hc], ?_⟩
    intro tr s' htr
    exact (runTrace_laneFresh ⟨hc, hfresh.1, hfresh.2.1, hfresh.2.2⟩ htr).2.2.2
  · have := runTrace_drainSched { s with closed := true } halive rfl
    simpa [laneShutdown] using this
  · exact drainSched_length { s with closed := true }

/-- Witness for C6 at a concrete shut-down lane with a job in flight, one
queued job, and a fresh job id `7`. -/
theorem c6_submit_closed_release_witness :
    ((⟨[2], some 3, [4], [4, 3, 2], true, true⟩ : LaneState).workerAlive = true ∧
      (7 ∉ (⟨[2], some 3, [4], [4, 3, 2], true, true⟩ : LaneState).queue ∧
        (⟨[2], some 3, [4], [4, 3, 2], true, true⟩ : LaneState).running ≠ some 7 ∧
        7 ∉ (⟨[2], some 3, [4], [4, 3, 2], true, true⟩ : LaneState).done)) ∧
    (((∃ e, (⟨[2], some 3, [4], [4, 3, 2], true, true⟩ : LaneState).submitJob 7 =
        Except.error e) ↔
          (⟨[2], some 3, [4], [4, 3, 2], true, true⟩ : LaneState).closed = true) ∧
      ((⟨[2], some 3, [4], [4, 3, 2], true, true⟩ : LaneState).closed = true →
        (⟨[2], some 3, [4], [4, 3, 2], true, true⟩ : LaneState).submitJob 7 =
          Except.error laneClosedError ∧
        ∀ tr s', runTrace (⟨[2], some 3, [4], [4, 3, 2], true, true⟩ : LaneState) tr =
          some s' → 7 ∉ s'.done) ∧
      (runTrace { (⟨[2], some 3, [4], [4, 3, 2], true, true⟩ : LaneState) with closed := true }
          (drainSched { (⟨[2], some 3, [4], [4, 3, 2], true, true⟩ : LaneState) with
            closed := true }) =
          some (laneShutdown (⟨[2], some 3, [4], [4, 3, 2], true, true⟩ : LaneState)) ∧
        (laneShutdown (⟨[2], some 3, [4], [4, 3, 2], true, true⟩ : LaneState)).workerAlive =
          false ∧
        (laneShutdown (⟨[2], some 3, [4], [4, 3, 2], true, true⟩ : LaneState)).done =
          (⟨[2], some 3, [4], [4, 3, 2], true, true⟩ : LaneState).done ++
            (⟨[2], some 3, [4], [4, 3, 2], true, true⟩ : LaneState).running.toList ++
            (⟨[2], some 3, [4], [4, 3, 2], true, true⟩ : LaneState).queue ∧
        (drainSched { (⟨[2], some 3, [4], [4, 3, 2], true, true⟩ : LaneState) with
          closed := true }).length ≤
          2 * (⟨[2], some 3, [4], [4, 3, 2], true, true⟩ : LaneState).queue.length + 2)) :=
  ⟨⟨by decide, by decide, by decide, by decide⟩,
    c6_submit_closed_release ⟨[2], some 3, [4], [4, 3, 2], true, true⟩ 7 (by decide)
      ⟨by decide, by decide, by decide⟩⟩

/-- Claim C7: the decorated `arguments(one, two, three=None, four=None)`
resolves to `True` when awaited with `(1, 2, 3, 4)`, with
`(1, 2, three=3, four=4)`, and with all-keyword
`(three=3, four=4, one=1, two=2)`, and resolves to `False` when awaited
with only `(1, 2)` (the defaults `None` fail the comparison with `3`,`4`). -/
theorem c7_arguments_cases :
    share_call openPool (argumentsFunc : PyFunc Unit) ()
        [PyVal.pyInt 1, PyVal.pyInt 2, PyVal.pyInt 3, PyVal.pyInt 4] [] =
      Except.ok (PyVal.pyBool true) ∧
    share_call openPool (argumentsFunc : PyFunc Unit) () [PyVal.pyInt 1, PyVal.pyInt 2]
        [("three", PyVal.pyInt 3), ("four", PyVal.pyInt 4)] =
      Except.ok (PyVal.pyBool true) ∧
    share_call openPool (argumentsFunc : PyFunc Unit) () []
        [("three", PyVal.pyInt 3), ("four", PyVal.pyInt 4),
         ("one", PyVal.pyInt 1), ("two", PyVal.pyInt 2)] =
      Except.ok (PyVal.pyBool true) ∧
    share_call openPool (argumentsFunc : PyFunc Unit) () [PyVal.pyInt 1, PyVal.pyInt 2] [] =
      Except.ok (PyVal.pyBool false) := by
  decide

/-- Claim C8: lane shutdown is idempotent — applying `shutdown()` to a lane
that has already been shut down leaves the state exactly as the first
shutdown left it. -/
theorem c8_shutdown_idempotent (s : LaneState) :
    laneShutdown (laneShutdown s) = laneShutdown s := by
  simp [laneShutdown]

/-- Claim C9: the failure delivered at the await point is the identical
exception object raised inside the wrapped method: `set_exception` stores
the raised object and `Future.result` re-raises that stored object, so the
awaiter sees the same identity (`excId`), kind and message — not a copy or
a wrapper. -/
theorem c9_exception_identity {ρ : Type} (p : Pool) (f : PyFunc ρ) (r : ρ)
    (pos : List PyVal) (kw : List (String × PyVal)) (e : PyExc)
    (hopen : p.closed = false)
    (hraise : callPyFunc f r pos kw = Except.error e) :
    share_call p f r pos kw = Except.error e := by
  simp [share_call, Pool.submit, hopen, Future.result, Job.run, hraise]

/-- Witness for C9 at the `crash` method raising the exception object with
identity `7`. -/
theorem c9_exception_identity_witness :
    (openPool.closed = false ∧
      callPyFunc (crashFunc 7 : PyFunc Unit) () [] [] =
        Except.error ⟨7, "RuntimeWarning", "Can you read this exception?"⟩) ∧
    share_call openPool (crashFunc 7 : PyFunc Unit) () [] [] =
      Except.error ⟨7, "RuntimeWarning", "Can you read this exception?"⟩ :=
  ⟨⟨rfl, rfl⟩, c9_exception_identity openPool (crashFunc 7 : PyFunc Unit) () [] [] _ rfl rfl⟩

/-- Claim C10: accessing a decorated method through the class itself stores
`None` into `_obj`, so awaiting the returned callable fails with the
`AttributeError` raised by `self._obj.pool` before any submission: no job
is submitted (receiver `none`) and the wrapped body is never executed — the
result does not depend on the wrapped method or the arguments at all. -/
theorem c10_class_access_never_runs {ρ : Type} (prev : ShareState ρ)
    (f : PyFunc ρ) (pos : List PyVal) (kw : List (String × PyVal)) :
    awaitBound (share_get prev Option.none) f pos kw =
      ⟨Option.none, Except.error attrErrorNone⟩ := rfl
